import Mathlib

/-!
# Verification of the gnumeric-py cell/sheet core

A shallow embedding of the cell value-type system and the sheet
addressing/bounding-rectangle engine of `src/cell.py` and `src/sheet.py`,
together with theorems settling the specification claims about them.

Modelling conventions:
* An XML cell element (`gnm:Cell`) is a `CellNode`: its `Row`/`Col`
  attributes (written and read as decimal integers), its optional
  `ValueType` attribute (always written as `str(intTag)` and read back with
  `int`, hence modelled as `Option Int`), its optional `ExprID` attribute,
  and its optional text content (`None` for an absent text node).
* Python runtime values passed to `set_value`/returned by `get_value` are a
  `PyValue`.  A Python `float` is modelled by its canonical shortest
  round-trip decimal representation (the string `repr`/`str` produce);
  two finite floats are equal iff these representations are equal, and
  `float` applied to a canonical representation returns the float with
  that representation (Python guarantees `float(repr(x)) == x`).
* Python exceptions are the constructors of `PyError`.
* `src/expression.py` is not present in the tree; the `Expression` object
  and its accessors are modelled from the spec (doc comments on each say
  so).  All claim-deciding logic lives in `cell.py`/`sheet.py` and is
  translated from those files.
-/

/-- Value-type constants of `cell.py`. -/
def VALUE_TYPE_EXPR : Int := -10

def VALUE_TYPE_EMPTY : Int := 10

def VALUE_TYPE_BOOLEAN : Int := 20

def VALUE_TYPE_INTEGER : Int := 30

def VALUE_TYPE_FLOAT : Int := 40

def VALUE_TYPE_ERROR : Int := 50

def VALUE_TYPE_STRING : Int := 60

def VALUE_TYPE_CELLRANGE : Int := 70

def VALUE_TYPE_ARRAY : Int := 80

/-- The Python exceptions the embedded code can raise. -/
inductive PyError where
  /-- `UnrecognizedCellTypeException` from `src/exceptions.py`. -/
  | unrecognizedCellType
  /-- `UnsupportedOperationException` from `src/exceptions.py`. -/
  | unsupportedOperation
  /-- Builtin `IndexError`. -/
  | indexError
  /-- Builtin `AttributeError` (e.g. calling a method on `None`). -/
  | attributeError
  /-- Builtin `ValueError` (e.g. `max()` of an empty sequence, bad `int()`). -/
  | valueError
  /-- Builtin `TypeError` (e.g. `int(None)`). -/
  | typeError
  /-- Builtin `NotImplementedError`. -/
  | notImplementedError
  deriving Repr, DecidableEq

/-- One `gnm:Cell` element: `Row`/`Col` attributes, the optional `ValueType`
attribute (decimal rendering of an integer tag), the optional `ExprID`
attribute, and the optional element text. -/
structure CellNode where
  row : Int
  col : Int
  valueType : Option Int
  exprId : Option String
  text : Option String
  deriving Repr, DecidableEq

instance : Inhabited CellNode := ⟨⟨0, 0, none, none, none⟩⟩

/-- A Python float, modelled by its canonical shortest round-trip decimal
representation (what `repr`/`str` produce for it). -/
structure PyFloat where
  rep : String
  deriving Repr, DecidableEq

/-- Modelled from the spec: `src/expression.py` is absent from the source
tree.  Per §4.3 an expression reference is constructed bound to an optional
id (absent means "not yet assigned"), an owning sheet, and an originating
cell. The owning sheet is modelled by an identity token, the originating
cell by its coordinate. -/
structure ExpressionObj where
  id : Option String
  worksheet : Nat
  cell : Int × Int
  deriving Repr, DecidableEq

/-- A Python runtime value, by exact runtime type (the inference rule of
`set_value` dispatches on `type(value)`). -/
inductive PyValue where
  | pyBool (b : Bool)
  | pyInt (n : Int)
  | pyFloat (f : PyFloat)
  | pyStr (s : String)
  | pyNone
  | pyExpr (e : ExpressionObj)
  deriving Repr, DecidableEq

/-- Python truthiness (`bool(value)`): `False`, `0`, `0.0`, `-0.0`, the
empty string and `None` are falsy; every other modelled value is truthy
(objects are truthy by default). -/
def pyTruthy : PyValue → Bool
  | .pyBool b => b
  | .pyInt n => n ≠ 0
  | .pyFloat f => ¬(f.rep = "0.0" ∨ f.rep = "-0.0")
  | .pyStr s => s ≠ ""
  | .pyNone => false
  | .pyExpr _ => true

/-- Python `str(value)` for the modelled values (`str` of an expression
object is never stored by a claim-relevant path; it is given its default
object rendering here). -/
def pyStrOf : PyValue → String
  | .pyBool b => if b then "True" else "False"
  | .pyInt n => toString n
  | .pyFloat f => f.rep
  | .pyStr s => s
  | .pyNone => "None"
  | .pyExpr _ => "<Expression object>"

/-- `text.startswith('=')` (equivalently `value[0] == '='` on a nonempty
string): whether the first character is `=`.  The code only ever tests
this one-character pattern. -/
def startsWithEquals (t : String) : Bool :=
  t.data.head? = some '='

/-- Helper for `pyIntOfString`: fold a nonempty run of decimal digits
(any other character makes the parse fail). -/
def parseDecDigits : List Char → Nat → Option Nat
  | [], acc => some acc
  | c :: cs, acc =>
    if c.isDigit then parseDecDigits cs (acc * 10 + (c.toNat - 48))
    else none

/-- Python `int(s)` on a string: an optional sign followed by at least one
decimal digit (`ValueError` otherwise, modelled as `none`). -/
def pyIntOfString (s : String) : Option Int :=
  match s.data with
  | [] => none
  | '-' :: cs =>
    if cs.isEmpty then none else (parseDecDigits cs 0).map (fun n => -(n : Int))
  | '+' :: cs =>
    if cs.isEmpty then none else (parseDecDigits cs 0).map (fun n => (n : Int))
  | cs => (parseDecDigits cs 0).map (fun n => (n : Int))

/-- `Cell.value_type` (cell.py lines 87-93): the explicit `ValueType`
attribute if present; else `EXPR` when an `ExprID` attribute is present or
the text starts with `=`.  When the text is `None`, Python evaluates
`None.startswith` and raises `AttributeError`; otherwise a cell with
neither tag nor inference path raises `UnrecognizedCellTypeException`. -/
def Cell.value_type (c : CellNode) : Except PyError Int :=
  match c.valueType with
  | some vt => .ok vt
  | none =>
    if c.exprId.isSome then .ok VALUE_TYPE_EXPR
    else
      match c.text with
      | none => .error .attributeError
      | some t =>
        if startsWithEquals t then .ok VALUE_TYPE_EXPR
        else .error .unrecognizedCellType

/-- `Cell.__set_type` (cell.py lines 95-100): `EXPR` removes the
`ValueType` attribute, every other tag is written explicitly. -/
def Cell.setType (c : CellNode) (vt : Int) : CellNode :=
  if vt = VALUE_TYPE_EXPR then { c with valueType := none }
  else { c with valueType := some vt }

/-- The value-type resolution step of `Cell.set_value` under the `'infer'`
directive (cell.py lines 138-150): runtime type first (bool/int/float),
then empty string or `None`, then expression object or leading `=`, then a
plain string keeps `STRING` over a simple-scalar prior type and otherwise
retains the cell's prior type (reading the prior type can itself fail). -/
def Cell.inferValueType (c : CellNode) (v : PyValue) : Except PyError Int :=
  match v with
  | .pyBool _ => .ok VALUE_TYPE_BOOLEAN
  | .pyInt _ => .ok VALUE_TYPE_INTEGER
  | .pyFloat _ => .ok VALUE_TYPE_FLOAT
  | .pyNone => .ok VALUE_TYPE_EMPTY
  | .pyExpr _ => .ok VALUE_TYPE_EXPR
  | .pyStr s =>
    if s = "" then .ok VALUE_TYPE_EMPTY
    else if startsWithEquals s then .ok VALUE_TYPE_EXPR
    else do
      let pt ← Cell.value_type c
      if pt = VALUE_TYPE_EMPTY ∨ pt = VALUE_TYPE_BOOLEAN ∨ pt = VALUE_TYPE_INTEGER
          ∨ pt = VALUE_TYPE_FLOAT ∨ pt = VALUE_TYPE_ERROR then
        .ok VALUE_TYPE_STRING
      else .ok pt

/-- The `value_type` argument of `Cell.set_value`: an explicit tag, the
string `'keep'`, or the default `'infer'`. -/
inductive Directive where
  | explicitType (t : Int)
  | keep
  | infer
  deriving Repr, DecidableEq

/-- Value-type resolution of `Cell.set_value` (cell.py lines 138-152) for
all three directives. -/
def Cell.resolveValueType (c : CellNode) (v : PyValue) (d : Directive) : Except PyError Int :=
  match d with
  | .infer => Cell.inferValueType c v
  | .keep => Cell.value_type c
  | .explicitType t => .ok t

/-- `SHEET_TYPE_REGULAR` (sheet.py): a regular worksheet has no `SheetType`
attribute. -/
def SHEET_TYPE_REGULAR : Option String := none

/-- `SHEET_TYPE_OBJECT` (sheet.py): an object (chart) sheet carries the
`SheetType` attribute value `'object'`. -/
def SHEET_TYPE_OBJECT : Option String := some "object"

/-- One sheet: its `SheetType` attribute, its capacity metadata
(`max_allowed_row`/`max_allowed_column`, already in 0-indexed upper-bound
form, i.e. the stored `Rows`/`Cols` counts minus one), the text of its
`gnm:MaxRow`/`gnm:MaxCol` metadata nodes, the ordered list of materialized
`gnm:Cell` child nodes of its `gnm:Cells` node, and an identity token for
the worksheet (used by the cross-sheet expression check, which compares
worksheet identities). -/
structure SheetState where
  sheetType : Option String
  maxAllowedRow : Int
  maxAllowedCol : Int
  maxRowMeta : String
  maxColMeta : String
  cells : List CellNode
  wsId : Nat
  deriving Repr, DecidableEq

/-- The `__EMPTY_CELL_XPATH_SELECTOR` predicate (sheet.py lines 34-36):
`@ValueType="10" or (not(@ValueType) and not(@ExprID) and
string-length(text())=0)`.  An absent text node has XPath string-length
`0`, so "zero-length text" covers both `None` and `""`. -/
def Sheet.isEmptyCell (c : CellNode) : Bool :=
  c.valueType = some VALUE_TYPE_EMPTY ∨
    (c.valueType = none ∧ c.exprId = none ∧ (c.text.getD "").length = 0)

/-- `Sheet.__get_empty_cells`: the cell nodes matching the emptiness
selector, in document order. -/
def Sheet.emptyCells (s : SheetState) : List CellNode :=
  s.cells.filter Sheet.isEmptyCell

/-- `Sheet.__get_non_empty_cells`: the cell nodes matching the negation of
the emptiness selector, in document order. -/
def Sheet.nonEmptyCells (s : SheetState) : List CellNode :=
  s.cells.filter (fun c => !Sheet.isEmptyCell c)

/-- Python `max` over a nonempty list of ints (the `[]` case is never
reached by the callers, which all guard on emptiness first). -/
def listMax : List Int → Int
  | [] => 0
  | x :: xs => xs.foldl max x

/-- Python `min` over a nonempty list of ints (the `[]` case is never
reached by the callers, which all guard on emptiness first). -/
def listMin : List Int → Int
  | [] => 0
  | x :: xs => xs.foldl min x

/-- `Sheet.max_column` (sheet.py lines 96-106): `UnsupportedOperation` on a
chartsheet, `-1` when no non-empty cell exists, otherwise the maximum
`Col` over the non-empty cells. -/
def Sheet.max_column (s : SheetState) : Except PyError Int :=
  if s.sheetType = SHEET_TYPE_OBJECT then .error .unsupportedOperation
  else
    let content := Sheet.nonEmptyCells s
    if content.length = 0 then .ok (-1)
    else .ok (listMax (content.map (·.col)))

/-- `Sheet.max_row` (sheet.py lines 117-127). -/
def Sheet.max_row (s : SheetState) : Except PyError Int :=
  if s.sheetType = SHEET_TYPE_OBJECT then .error .unsupportedOperation
  else
    let content := Sheet.nonEmptyCells s
    if content.length = 0 then .ok (-1)
    else .ok (listMax (content.map (·.row)))

/-- `Sheet.min_column` (sheet.py lines 138-147). -/
def Sheet.min_column (s : SheetState) : Except PyError Int :=
  if s.sheetType = SHEET_TYPE_OBJECT then .error .unsupportedOperation
  else
    let content := Sheet.nonEmptyCells s
    if content.length = 0 then .ok (-1)
    else .ok (listMin (content.map (·.col)))

/-- `Sheet.min_row` (sheet.py lines 149-158). -/
def Sheet.min_row (s : SheetState) : Except PyError Int :=
  if s.sheetType = SHEET_TYPE_OBJECT then .error .unsupportedOperation
  else
    let content := Sheet.nonEmptyCells s
    if content.length = 0 then .ok (-1)
    else .ok (listMin (content.map (·.row)))

/-- `Sheet.calculate_dimension` (sheet.py lines 160-170). -/
def Sheet.calculate_dimension (s : SheetState) : Except PyError (Int × Int × Int × Int) :=
  if s.sheetType = SHEET_TYPE_OBJECT then .error .unsupportedOperation
  else do
    let a ← Sheet.min_row s
    let b ← Sheet.min_column s
    let c ← Sheet.max_row s
    let d ← Sheet.max_column s
    .ok (a, b, c, d)

/-- `Sheet.is_valid_column` (sheet.py lines 172-177). -/
def Sheet.is_valid_column (s : SheetState) (column : Int) : Bool :=
  0 ≤ column ∧ column ≤ s.maxAllowedCol

/-- `Sheet.is_valid_row` (sheet.py lines 179-184). -/
def Sheet.is_valid_row (s : SheetState) (row : Int) : Bool :=
  0 ≤ row ∧ row ≤ s.maxAllowedRow

/-- `Sheet.cell` (sheet.py lines 186-209) together with
`Sheet.__create_and_get_new_cell` (lines 60-69): bounds check (row first,
then column, each an `IndexError`), lookup of the first cell node with the
requested `Row`/`Col` attributes, and — when absent — either creation of a
fresh cell node (the `NEW_CELL` template: the given coordinates, a
`ValueType` attribute of `10` = EMPTY, no text) appended at the end of the
collection, or an `IndexError` when `create` is false.  The possibly
updated sheet is returned alongside the outcome. -/
def Sheet.cellOp (s : SheetState) (rowIdx colIdx : Int) (create : Bool) :
    Except PyError CellNode × SheetState :=
  if ¬Sheet.is_valid_row s rowIdx then (.error .indexError, s)
  else if ¬Sheet.is_valid_column s colIdx then (.error .indexError, s)
  else
    match s.cells.find? (fun c => c.row = rowIdx ∧ c.col = colIdx) with
    | some c => (.ok c, s)
    | none =>
      if create then
        let newCell : CellNode :=
          { row := rowIdx, col := colIdx, valueType := some VALUE_TYPE_EMPTY,
            exprId := none, text := none }
        (.ok newCell, { s with cells := s.cells ++ [newCell] })
      else (.error .indexError, s)

/-- `Sheet.get_expression_map` (sheet.py lines 258-269): the cells carrying
an `ExprID` attribute and a non-`None` text, as an association list from
the id to `((row, col), text)` (the Python dict is built from exactly this
association list). -/
def Sheet.getExpressionMap (s : SheetState) : List (String × ((Int × Int) × String)) :=
  (s.cells.filter (fun c => c.exprId.isSome)).filterMap (fun c =>
    match c.exprId, c.text with
    | some eid, some t => some (eid, ((c.row, c.col), t))
    | _, _ => none)

/-- `Sheet._clean_data` (sheet.py lines 271-285): remove every cell node
matching the emptiness selector, then rewrite the `gnm:MaxCol` and
`gnm:MaxRow` metadata texts with `str(max_column)` and `str(max_row)`
computed on the remaining cells (those properties raise on a chartsheet,
so the whole operation does). -/
def Sheet.clean_data (s : SheetState) : Except PyError SheetState := do
  let s1 : SheetState := { s with cells := s.cells.filter (fun c => !Sheet.isEmptyCell c) }
  let mc ← Sheet.max_column s1
  let mr ← Sheet.max_row s1
  .ok { s1 with maxColMeta := toString mc, maxRowMeta := toString mr }

/-- Modelled from the spec: `src/expression.py` is absent.
`Expression.get_all_cells` returns the cells currently referencing this
expression's id, "computed by scanning the sheet's expression-id index,
not stored redundantly" (§4.3); an id-less expression is referenced only
by its construction cell. -/
def Expression.get_all_cells (e : ExpressionObj) (s : SheetState) : List (Int × Int) :=
  match e.id with
  | none => [e.cell]
  | some eid => ((s.cells.filter (fun c => c.exprId = some eid)).map (fun c => (c.row, c.col)))

/-- Modelled from the spec: `src/expression.py` is absent.
`Expression.get_originating_cell` returns the cell "holding the literal
text (... it is looked up, not assumed)" (§4.3): the first cell of the
sheet carrying this id together with a non-absent text, falling back to
the construction cell. -/
def Expression.get_originating_cell (e : ExpressionObj) (s : SheetState) : Int × Int :=
  match e.id with
  | none => e.cell
  | some eid =>
    match s.cells.find? (fun c => c.exprId = some eid ∧ c.text ≠ none) with
    | some c => (c.row, c.col)
    | none => e.cell

/-- Modelled from the spec: `src/expression.py` is absent.
`Expression.value` is "the literal formula text from the originating cell"
(§4.3). -/
def Expression.exprValue (e : ExpressionObj) (s : SheetState) : Option String :=
  let o := Expression.get_originating_cell e s
  match s.cells.find? (fun c => c.row = o.1 ∧ c.col = o.2) with
  | some c => c.text
  | none => none

/-- Python `str(value.id)` where the id is `None` or a string. -/
def strOfOptId : Option String → String
  | none => "None"
  | some s => s

/-- The id-allocation expression of `Cell.set_value` (cell.py line 164):
`str(max(int(k) for k in worksheet.get_expression_map()) + 1)`.  `max` of
an empty sequence raises `ValueError`; `int` of a non-decimal key also
raises `ValueError`. -/
def allocateExprId (m : List (String × ((Int × Int) × String))) : Except PyError String :=
  match m.map Prod.fst with
  | [] => .error .valueError
  | k :: ks =>
    match (k :: ks).mapM pyIntOfString with
    | none => .error .valueError
    | some is => .ok (toString (listMax is + 1))

/-- Replace the cell at a list position (the live tree node the Python
`Cell` wraps). -/
def setCellAt (s : SheetState) (idx : Nat) (c : CellNode) : SheetState :=
  { s with cells := s.cells.set idx c }

/-- `Cell.__set_expression_id` applied to the (unique) cell at a
coordinate: set its `ExprID` attribute. -/
def setExprIdAtCoord : List CellNode → Int × Int → String → List CellNode
  | [], _, _ => []
  | c :: rest, p, eid =>
    if c.row = p.1 ∧ c.col = p.2 then { c with exprId := some eid } :: rest
    else c :: setExprIdAtCoord rest p eid

/-- `Cell.set_value` (cell.py lines 118-178) for the cell at position
`idx` of the sheet's cell collection.  After resolving the value type
(lines 138-152) the text mutation dispatches on it: BOOLEAN stores
`str(bool(value)).upper()`; EMPTY clears the text; EXPR with an
expression-object value runs the shared-formula bookkeeping (cross-sheet
check, id resolution/allocation, self-copy vs shared reference); every
other case stores `str(value)`.  Finally `__set_type` writes the tag
(EXPR removes it). -/
def Cell.set_value (s : SheetState) (idx : Nat) (v : PyValue) (d : Directive) :
    Except PyError SheetState := do
  let c := s.cells.getD idx default
  let vt ← Cell.resolveValueType c v d
  if vt = VALUE_TYPE_BOOLEAN then
    .ok (setCellAt s idx (Cell.setType
      { c with text := some (if pyTruthy v then "TRUE" else "FALSE") } vt))
  else if vt = VALUE_TYPE_EMPTY then
    .ok (setCellAt s idx (Cell.setType { c with text := none } vt))
  else if vt = VALUE_TYPE_EXPR then
    match v with
    | .pyExpr e =>
      if e.worksheet ≠ s.wsId then .error .notImplementedError
      else do
        let m := Sheet.getExpressionMap s
        let eid0 := strOfOptId e.id
        let eid ←
          if ¬(m.map Prod.fst).contains eid0 ∧ e.id = none then allocateExprId m
          else .ok eid0
        let allCells := Expression.get_all_cells e s
        let origin := Expression.get_originating_cell e s
        if allCells.length = 1 ∧ origin = (c.row, c.col) then
          .ok (setCellAt s idx (Cell.setType { c with text := Expression.exprValue e s } vt))
        else
          let s1 :=
            if allCells.length = 1 then { s with cells := setExprIdAtCoord s.cells origin eid }
            else s
          let c1 := s1.cells.getD idx default
          .ok (setCellAt s1 idx (Cell.setType { c1 with text := none, exprId := some eid } vt))
    | _ => .ok (setCellAt s idx (Cell.setType { c with text := some (pyStrOf v) } vt))
  else
    .ok (setCellAt s idx (Cell.setType { c with text := some (pyStrOf v) } vt))

/-- `Cell.get_value` (cell.py lines 102-116): dispatch on `value_type`.
BOOLEAN is a truthiness parse of the stored text (`bool(None)` is
`False`); INTEGER/FLOAT parse the text (`int(None)`/`float(None)` raise
`TypeError`, a non-numeric text raises `ValueError`; `float` is modelled
on canonical representations, where it is the identity — exact for every
text this model's `set_value` writes); EXPR builds an expression handle
bound to this cell's `ExprID`, worksheet and coordinate; every other type
returns the raw text. -/
def Cell.get_value (s : SheetState) (c : CellNode) : Except PyError PyValue := do
  let vt ← Cell.value_type c
  if vt = VALUE_TYPE_BOOLEAN then
    .ok (.pyBool (match c.text with | none => false | some t => t ≠ ""))
  else if vt = VALUE_TYPE_INTEGER then
    match c.text with
    | none => .error .typeError
    | some t =>
      match pyIntOfString t with
      | some n => .ok (.pyInt n)
      | none => .error .valueError
  else if vt = VALUE_TYPE_FLOAT then
    match c.text with
    | none => .error .typeError
    | some t => .ok (.pyFloat ⟨t⟩)
  else if vt = VALUE_TYPE_EXPR then
    .ok (.pyExpr ⟨c.exprId, s.wsId, (c.row, c.col)⟩)
  else
    .ok (match c.text with | none => .pyNone | some t => .pyStr t)

/-- The §4.1 inference priority table, written from the specification's
words: boolean → BOOLEAN; integer → INTEGER; float → FLOAT; empty string
or absent → EMPTY; expression-reference object or string beginning with
`=` → EXPR; plain string over a prior type in {EMPTY, BOOLEAN, INTEGER,
FLOAT, ERROR} → STRING; otherwise the prior type is retained (reading the
prior type may fail on a malformed cell). -/
def specInferPriority (c : CellNode) (v : PyValue) : Except PyError Int :=
  match v with
  | .pyBool _ => .ok VALUE_TYPE_BOOLEAN
  | .pyInt _ => .ok VALUE_TYPE_INTEGER
  | .pyFloat _ => .ok VALUE_TYPE_FLOAT
  | .pyNone => .ok VALUE_TYPE_EMPTY
  | .pyExpr _ => .ok VALUE_TYPE_EXPR
  | .pyStr s =>
    if s = "" then .ok VALUE_TYPE_EMPTY
    else if startsWithEquals s then .ok VALUE_TYPE_EXPR
    else
      match Cell.value_type c with
      | .error e => .error e
      | .ok pt =>
        if pt = VALUE_TYPE_EMPTY ∨ pt = VALUE_TYPE_BOOLEAN ∨ pt = VALUE_TYPE_INTEGER
            ∨ pt = VALUE_TYPE_FLOAT ∨ pt = VALUE_TYPE_ERROR then
          .ok VALUE_TYPE_STRING
        else .ok pt

/-- The emptiness predicate, written from the specification's words: a cell
counts as empty iff its explicit type tag equals EMPTY, or it has no type
tag, no expression-id, and zero-length text. -/
def specEmptyCell (c : CellNode) : Bool :=
  c.valueType = some VALUE_TYPE_EMPTY ∨
    (c.valueType = none ∧ c.exprId = none ∧ (c.text.getD "").length = 0)

theorem getD_set_self {α : Type} (l : List α) (i : Nat) (a d : α)
    (h : i < l.length) : (l.set i a).getD i d = a := by
  induction l generalizing i with
  | nil => simp at h
  | cons x xs ih =>
    cases i with
    | zero => rfl
    | succ n => exact ih n (by simpa using h)

theorem le_foldl_max (xs : List Int) (x : Int) : x ≤ xs.foldl max x := by
  induction xs generalizing x with
  | nil => exact le_refl x
  | cons y ys ih => exact le_trans (le_max_left x y) (ih (max x y))

theorem foldl_max_mem (xs : List Int) (x : Int) :
    xs.foldl max x = x ∨ xs.foldl max x ∈ xs := by
  induction xs generalizing x with
  | nil => exact Or.inl rfl
  | cons y ys ih =>
    rcases ih (max x y) with h | h
    · rcases max_choice x y with hc | hc
      · exact Or.inl (by rw [List.foldl_cons, h, hc])
      · exact Or.inr (by rw [List.foldl_cons, h, hc]; exact List.mem_cons_self y ys)
    · exact Or.inr (List.mem_cons_of_mem y h)

theorem mem_le_foldl_max (xs : List Int) (x y : Int) (h : y ∈ xs) :
    y ≤ xs.foldl max x := by
  induction xs generalizing x with
  | nil => simp at h
  | cons z zs ih =>
    rcases List.mem_cons.mp h with rfl | hm
    · exact le_trans (le_max_right x y) (le_foldl_max zs (max x y))
    · exact ih (max x z) hm

theorem foldl_min_le (xs : List Int) (x : Int) : xs.foldl min x ≤ x := by
  induction xs generalizing x with
  | nil => exact le_refl x
  | cons y ys ih => exact le_trans (ih (min x y)) (min_le_left x y)

theorem foldl_min_mem (xs : List Int) (x : Int) :
    xs.foldl min x = x ∨ xs.foldl min x ∈ xs := by
  induction xs generalizing x with
  | nil => exact Or.inl rfl
  | cons y ys ih =>
    rcases ih (min x y) with h | h
    · rcases min_choice x y with hc | hc
      · exact Or.inl (by rw [List.foldl_cons, h, hc])
      · exact Or.inr (by rw [List.foldl_cons, h, hc]; exact List.mem_cons_self y ys)
    · exact Or.inr (List.mem_cons_of_mem y h)

theorem foldl_min_le_mem (xs : List Int) (x y : Int) (h : y ∈ xs) :
    xs.foldl min x ≤ y := by
  induction xs generalizing x with
  | nil => simp at h
  | cons z zs ih =>
    rcases List.mem_cons.mp h with rfl | hm
    · exact le_trans (foldl_min_le zs (min x y)) (min_le_right x y)
    · exact ih (min x z) hm

theorem filter_idem {α : Type} (p : α → Bool) (l : List α) :
    (l.filter p).filter p = l.filter p := by
  induction l with
  | nil => rfl
  | cons x xs ih =>
    by_cases h : p x
    · simp [List.filter_cons, h, ih]
    · simp [List.filter_cons, h, ih]

theorem set_value_nonexpr_eq (s : SheetState) (idx : Nat) (v : PyValue) (d : Directive) (t : Int)
    (hv : ∀ e, v ≠ .pyExpr e)
    (hr : Cell.resolveValueType (s.cells.getD idx default) v d = .ok t) :
    Cell.set_value s idx v d = .ok (setCellAt s idx (Cell.setType
      (if t = VALUE_TYPE_BOOLEAN then
        { s.cells.getD idx default with text := some (if pyTruthy v then "TRUE" else "FALSE") }
       else if t = VALUE_TYPE_EMPTY then { s.cells.getD idx default with text := none }
       else { s.cells.getD idx default with text := some (pyStrOf v) }) t)) := by
  cases v with
  | pyExpr e => exact absurd rfl (hv e)
  | pyBool b =>
    unfold Cell.set_value
    simp only [hr, Bind.bind, Except.bind]
    split_ifs <;> rfl
  | pyInt n =>
    unfold Cell.set_value
    simp only [hr, Bind.bind, Except.bind]
    split_ifs <;> rfl
  | pyFloat f =>
    unfold Cell.set_value
    simp only [hr, Bind.bind, Except.bind]
    split_ifs <;> rfl
  | pyStr str =>
    unfold Cell.set_value
    simp only [hr, Bind.bind, Except.bind]
    split_ifs <;> rfl
  | pyNone =>
    unfold Cell.set_value
    simp only [hr, Bind.bind, Except.bind]
    split_ifs <;> rfl

/-- A tag-less cell whose stored text begins with `=`: its type is
inferred as EXPR from the text alone. -/
def exprTextCell : CellNode := ⟨0, 0, none, none, some "=max()"⟩

/-- A one-cell regular sheet holding `exprTextCell`. -/
def exprTextSheet : SheetState := ⟨SHEET_TYPE_REGULAR, 99, 99, "0", "0", [exprTextCell], 0⟩

/-- C1, counterexample: on a tag-less cell whose text is `"=max()"` (prior
type EXPR by inference), `set_value("abc", 'infer')` resolves the retained
prior type EXPR — but the subsequent `value_type` read raises
`UnrecognizedCellTypeException` instead of returning EXPR, because the tag
was removed, no `ExprID` is present, and the new text no longer starts
with `=`. -/
theorem C1_counterexample :
    Cell.resolveValueType exprTextCell (.pyStr "abc") .infer = .ok VALUE_TYPE_EXPR ∧
    (Cell.set_value exprTextSheet 0 (.pyStr "abc") .infer).map
      (fun s => Cell.value_type (s.cells.getD 0 default)) = .ok (.error .unrecognizedCellType) ∧
    (Except.error PyError.unrecognizedCellType : Except PyError Int) ≠ .ok VALUE_TYPE_EXPR :=
  ⟨rfl, rfl, fun h => Except.noConfusion h⟩

/-- C1 (amended): `set_value(v, 'infer')` resolves the stored value type by
exactly the §4.1 priority (stated via `specInferPriority`, written from
the spec's words), and for every non-expression-object value whose
resolution succeeds, a subsequent `value_type` returns that resolved type
— except when the resolved type is EXPR, the cell carries no `ExprID`, and
the stored text does not begin with `=` (a plain string overwriting a
text-inferred EXPR cell), in which case `value_type` raises
`UnrecognizedCellTypeException` instead. -/
theorem C1_inference (s : SheetState) (idx : Nat) (v : PyValue)
    (hidx : idx < s.cells.length) :
    (∀ w : PyValue, Cell.resolveValueType (s.cells.getD idx default) w .infer
        = specInferPriority (s.cells.getD idx default) w) ∧
    (∀ t : Int, (∀ e, v ≠ PyValue.pyExpr e) →
      Cell.resolveValueType (s.cells.getD idx default) v .infer = .ok t →
      ∃ s', Cell.set_value s idx v .infer = .ok s' ∧
        Cell.value_type (s'.cells.getD idx default) =
          (if t = VALUE_TYPE_EXPR ∧ (s.cells.getD idx default).exprId = none
              ∧ ¬startsWithEquals (pyStrOf v)
           then .error .unrecognizedCellType else .ok t)) := by
  constructor
  · intro w
    cases w <;> try rfl
    case pyStr str =>
      show Cell.inferValueType (s.cells.getD idx default) (.pyStr str)
          = specInferPriority (s.cells.getD idx default) (.pyStr str)
      unfold Cell.inferValueType specInferPriority
      by_cases h1 : str = ""
      · simp [h1]
      · by_cases h2 : startsWithEquals str
        · simp [h1, h2]
        · cases hvt : Cell.value_type (s.cells.getD idx default) with
          | error e => simp [h1, h2, hvt, Bind.bind, Except.bind]
          | ok pt => simp [h1, h2, hvt, Bind.bind, Except.bind]
  · intro t hv hr
    refine ⟨_, set_value_nonexpr_eq s idx v .infer t hv hr, ?_⟩
    rw [show (setCellAt s idx (Cell.setType
      (if t = VALUE_TYPE_BOOLEAN then
        { s.cells.getD idx default with text := some (if pyTruthy v then "TRUE" else "FALSE") }
       else if t = VALUE_TYPE_EMPTY then { s.cells.getD idx default with text := none }
       else { s.cells.getD idx default with text := some (pyStrOf v) }) t)).cells.getD idx default
      = Cell.setType
      (if t = VALUE_TYPE_BOOLEAN then
        { s.cells.getD idx default with text := some (if pyTruthy v then "TRUE" else "FALSE") }
       else if t = VALUE_TYPE_EMPTY then { s.cells.getD idx default with text := none }
       else { s.cells.getD idx default with text := some (pyStrOf v) }) t
      from getD_set_self _ idx _ _ (by simpa using hidx)]
    by_cases hexpr : t = VALUE_TYPE_EXPR
    · have ht20 : t ≠ VALUE_TYPE_BOOLEAN := by rw [hexpr]; decide
      have ht10 : t ≠ VALUE_TYPE_EMPTY := by rw [hexpr]; decide
      rw [if_neg ht20, if_neg ht10]
      unfold Cell.setType
      rw [if_pos hexpr]
      cases hex : (s.cells.getD idx default).exprId with
      | some eid => simp [Cell.value_type, hex, hexpr]
      | none =>
        by_cases hsw : startsWithEquals (pyStrOf v)
        · simp [Cell.value_type, hex, hsw, hexpr]
        · simp [Cell.value_type, hex, hsw, hexpr]
    · have hcond : ¬(t = VALUE_TYPE_EXPR ∧ (s.cells.getD idx default).exprId = none
          ∧ ¬startsWithEquals (pyStrOf v)) := fun h => hexpr h.1
      rw [if_neg hcond]
      unfold Cell.setType
      rw [if_neg hexpr]
      split_ifs <;> simp [Cell.value_type]

/-- A one-cell regular sheet whose cell carries an explicit EMPTY tag (the
state a freshly created cell is in). -/
def plainSheet : SheetState :=
  ⟨SHEET_TYPE_REGULAR, 99, 99, "0", "0", [⟨0, 0, some VALUE_TYPE_EMPTY, none, none⟩], 0⟩

/-- C1, witness: the amended theorem applied to storing the integer `7`
into a fresh EMPTY cell. -/
theorem C1_inference_witness :
    Cell.resolveValueType (plainSheet.cells.getD 0 default) (.pyInt 7) .infer
      = specInferPriority (plainSheet.cells.getD 0 default) (.pyInt 7) ∧
    ∃ s', Cell.set_value plainSheet 0 (.pyInt 7) .infer = .ok s' ∧
      Cell.value_type (s'.cells.getD 0 default) =
        (if (VALUE_TYPE_INTEGER : Int) = VALUE_TYPE_EXPR
            ∧ (plainSheet.cells.getD 0 default).exprId = none
            ∧ ¬startsWithEquals (pyStrOf (PyValue.pyInt 7))
         then .error .unrecognizedCellType else .ok VALUE_TYPE_INTEGER) := by
  have h := C1_inference plainSheet 0 (.pyInt 7) (by decide)
  exact ⟨h.1 (.pyInt 7), h.2 VALUE_TYPE_INTEGER (fun e h2 => PyValue.noConfusion h2) rfl⟩

theorem max_row_eq (s : SheetState) (h : s.sheetType ≠ SHEET_TYPE_OBJECT) :
    Sheet.max_row s = .ok (if (Sheet.nonEmptyCells s).length = 0 then -1
      else listMax ((Sheet.nonEmptyCells s).map (·.row))) := by
  unfold Sheet.max_row
  rw [if_neg h]
  by_cases hc : (Sheet.nonEmptyCells s).length = 0 <;> simp [hc]

theorem max_column_eq (s : SheetState) (h : s.sheetType ≠ SHEET_TYPE_OBJECT) :
    Sheet.max_column s = .ok (if (Sheet.nonEmptyCells s).length = 0 then -1
      else listMax ((Sheet.nonEmptyCells s).map (·.col))) := by
  unfold Sheet.max_column
  rw [if_neg h]
  by_cases hc : (Sheet.nonEmptyCells s).length = 0 <;> simp [hc]

theorem min_row_eq (s : SheetState) (h : s.sheetType ≠ SHEET_TYPE_OBJECT) :
    Sheet.min_row s = .ok (if (Sheet.nonEmptyCells s).length = 0 then -1
      else listMin ((Sheet.nonEmptyCells s).map (·.row))) := by
  unfold Sheet.min_row
  rw [if_neg h]
  by_cases hc : (Sheet.nonEmptyCells s).length = 0 <;> simp [hc]

theorem min_column_eq (s : SheetState) (h : s.sheetType ≠ SHEET_TYPE_OBJECT) :
    Sheet.min_column s = .ok (if (Sheet.nonEmptyCells s).length = 0 then -1
      else listMin ((Sheet.nonEmptyCells s).map (·.col))) := by
  unfold Sheet.min_column
  rw [if_neg h]
  by_cases hc : (Sheet.nonEmptyCells s).length = 0 <;> simp [hc]

theorem clean_data_eq (s : SheetState) (h : s.sheetType ≠ SHEET_TYPE_OBJECT) :
    Sheet.clean_data s = .ok { s with
      cells := Sheet.nonEmptyCells s,
      maxColMeta := toString (if (Sheet.nonEmptyCells s).length = 0 then (-1 : Int)
        else listMax ((Sheet.nonEmptyCells s).map (·.col))),
      maxRowMeta := toString (if (Sheet.nonEmptyCells s).length = 0 then (-1 : Int)
        else listMax ((Sheet.nonEmptyCells s).map (·.row))) } := by
  have hty : ({ s with cells := s.cells.filter (fun c => !Sheet.isEmptyCell c) } : SheetState).sheetType
      = s.sheetType := rfl
  unfold Sheet.clean_data Sheet.max_column Sheet.max_row
  simp only [hty, if_neg h, Bind.bind, Except.bind, Sheet.nonEmptyCells, filter_idem]
  by_cases hc : (List.filter (fun c => !Sheet.isEmptyCell c) s.cells).length = 0 <;> simp [hc]

/-- C2: a materialized cell counts as empty iff its explicit type tag is
EMPTY, or it has no type tag, no expression-id, and zero-length text (the
spec-side predicate `specEmptyCell`); a cell with an explicit non-EMPTY
tag counts as non-empty even with empty text; and exactly this predicate
selects the cells considered by the bounding-rectangle queries and the
cells removed by save-time compaction. -/
theorem C2_emptiness (c : CellNode) (s : SheetState) :
    (Sheet.isEmptyCell c = specEmptyCell c) ∧
    (∀ vt : Int, c.valueType = some vt → vt ≠ VALUE_TYPE_EMPTY →
      Sheet.isEmptyCell c = false) ∧
    (Sheet.nonEmptyCells s = s.cells.filter (fun d => !specEmptyCell d)) ∧
    (Sheet.emptyCells s = s.cells.filter (fun d => specEmptyCell d)) ∧
    (s.sheetType ≠ SHEET_TYPE_OBJECT →
      (∃ s', Sheet.clean_data s = .ok s'
          ∧ s'.cells = s.cells.filter (fun d => !specEmptyCell d)) ∧
      Sheet.max_row s = .ok (if (s.cells.filter (fun d => !specEmptyCell d)).length = 0 then -1
        else listMax ((s.cells.filter (fun d => !specEmptyCell d)).map (·.row))) ∧
      Sheet.max_column s = .ok (if (s.cells.filter (fun d => !specEmptyCell d)).length = 0 then -1
        else listMax ((s.cells.filter (fun d => !specEmptyCell d)).map (·.col))) ∧
      Sheet.min_row s = .ok (if (s.cells.filter (fun d => !specEmptyCell d)).length = 0 then -1
        else listMin ((s.cells.filter (fun d => !specEmptyCell d)).map (·.row))) ∧
      Sheet.min_column s = .ok (if (s.cells.filter (fun d => !specEmptyCell d)).length = 0 then -1
        else listMin ((s.cells.filter (fun d => !specEmptyCell d)).map (·.col)))) := by
  refine ⟨rfl, ?_, rfl, rfl, ?_⟩
  · intro vt h hne
    simp [Sheet.isEmptyCell, h, hne]
  · intro hobj
    exact ⟨⟨_, clean_data_eq s hobj, rfl⟩, max_row_eq s hobj, max_column_eq s hobj,
      min_row_eq s hobj, min_column_eq s hobj⟩

/-- C2, witness: a cell with an explicit STRING tag and empty text counts
as non-empty, and compaction of the one-cell EMPTY-tagged sheet keeps
exactly the cells selected as non-empty by the spec predicate. -/
theorem C2_emptiness_witness :
    Sheet.isEmptyCell ⟨1, 2, some VALUE_TYPE_STRING, none, some ""⟩ = false ∧
    ∃ s', Sheet.clean_data plainSheet = .ok s'
      ∧ s'.cells = plainSheet.cells.filter (fun d => !specEmptyCell d) := by
  have h := C2_emptiness ⟨1, 2, some VALUE_TYPE_STRING, none, some ""⟩ plainSheet
  exact ⟨h.2.1 VALUE_TYPE_STRING rfl (by decide), (h.2.2.2.2 (by decide)).1⟩

/-- C3: `cell(row, column, create)` fails with `IndexError` and leaves the
sheet unchanged when the coordinate is out of bounds; in bounds, an
existing materialized cell at that exact coordinate is returned without
mutation; an absent cell yields an `IndexError` without mutation when
`create` is false, and when `create` is true exactly one new EMPTY-typed
cell node at that position is appended to the cell collection and
returned. -/
theorem C3_cell_addressing (s : SheetState) (rowIdx colIdx : Int) (create : Bool) :
    (¬(0 ≤ rowIdx ∧ rowIdx ≤ s.maxAllowedRow) ∨ ¬(0 ≤ colIdx ∧ colIdx ≤ s.maxAllowedCol) →
      Sheet.cellOp s rowIdx colIdx create = (.error .indexError, s)) ∧
    ((0 ≤ rowIdx ∧ rowIdx ≤ s.maxAllowedRow) → (0 ≤ colIdx ∧ colIdx ≤ s.maxAllowedCol) →
      (∀ c, s.cells.find? (fun d => d.row = rowIdx ∧ d.col = colIdx) = some c →
        Sheet.cellOp s rowIdx colIdx create = (.ok c, s)) ∧
      (s.cells.find? (fun d => d.row = rowIdx ∧ d.col = colIdx) = none →
        Sheet.cellOp s rowIdx colIdx create =
          (if create then
            (.ok ⟨rowIdx, colIdx, some VALUE_TYPE_EMPTY, none, none⟩,
             { s with cells := s.cells ++ [⟨rowIdx, colIdx, some VALUE_TYPE_EMPTY, none, none⟩] })
           else (.error .indexError, s)))) := by
  constructor
  · intro h
    by_cases hr : (0 ≤ rowIdx ∧ rowIdx ≤ s.maxAllowedRow)
    · rcases h with h | h
      · exact absurd hr h
      · simp [Sheet.cellOp, Sheet.is_valid_row, Sheet.is_valid_column, hr, h]
    · simp [Sheet.cellOp, Sheet.is_valid_row, Sheet.is_valid_column, hr]
  · intro hr hc
    constructor
    · intro c hf
      simp only [Bool.decide_and] at hf
      simp [Sheet.cellOp, Sheet.is_valid_row, Sheet.is_valid_column, hr, hc, hf]
    · intro hf
      simp only [Bool.decide_and] at hf
      by_cases hcr : create <;>
        simp [Sheet.cellOp, Sheet.is_valid_row, Sheet.is_valid_column, hr, hc, hf, hcr]

/-- C3, witness: the four addressing scenarios on the one-cell sheet
(out-of-bounds row, existing cell, absent cell without create, absent cell
with create). -/
theorem C3_cell_addressing_witness :
    Sheet.cellOp plainSheet 200 0 true = (.error .indexError, plainSheet) ∧
    Sheet.cellOp plainSheet 0 0 true
      = (.ok ⟨0, 0, some VALUE_TYPE_EMPTY, none, none⟩, plainSheet) ∧
    Sheet.cellOp plainSheet 3 4 false = (.error .indexError, plainSheet) ∧
    Sheet.cellOp plainSheet 3 4 true
      = (.ok ⟨3, 4, some VALUE_TYPE_EMPTY, none, none⟩,
         { plainSheet with cells :=
            plainSheet.cells ++ [⟨3, 4, some VALUE_TYPE_EMPTY, none, none⟩] }) := by
  refine ⟨(C3_cell_addressing plainSheet 200 0 true).1 (Or.inl (by decide)), ?_, ?_, ?_⟩
  · exact ((C3_cell_addressing plainSheet 0 0 true).2 (by decide) (by decide)).1 _ rfl
  · exact ((C3_cell_addressing plainSheet 3 4 false).2 (by decide) (by decide)).2 rfl
  · exact ((C3_cell_addressing plainSheet 3 4 true).2 (by decide) (by decide)).2 rfl

/-- C4, counterexample: storing `True` writes the all-uppercase text
`"TRUE"` (`str(bool(value)).upper()`), not the claimed uppercase-initial
`"True"`. -/
theorem C4_counterexample :
    (Cell.set_value plainSheet 0 (.pyBool true) .infer).map
      (fun s => (s.cells.getD 0 default).text) = .ok (some "TRUE") ∧
    (some "TRUE" : Option String) ≠ some "True" :=
  ⟨rfl, by decide⟩

/-- C4 (amended): whenever `set_value` resolves the value type to BOOLEAN,
the text stored on the cell node is the fully-uppercase boolean encoding:
`"TRUE"` if the value is truthy and `"FALSE"` otherwise. -/
theorem C4_boolean_text (s : SheetState) (idx : Nat) (v : PyValue) (d : Directive)
    (hidx : idx < s.cells.length)
    (hr : Cell.resolveValueType (s.cells.getD idx default) v d = .ok VALUE_TYPE_BOOLEAN) :
    ∃ s', Cell.set_value s idx v d = .ok s' ∧
      (s'.cells.getD idx default).text = some (if pyTruthy v then "TRUE" else "FALSE") := by
  refine ⟨setCellAt s idx (Cell.setType { s.cells.getD idx default with
      text := some (if pyTruthy v then "TRUE" else "FALSE") } VALUE_TYPE_BOOLEAN), ?_, ?_⟩
  · unfold Cell.set_value
    simp only [hr, Bind.bind, Except.bind]
    simp
  · rw [show (setCellAt s idx (Cell.setType { s.cells.getD idx default with
        text := some (if pyTruthy v then "TRUE" else "FALSE") } VALUE_TYPE_BOOLEAN)).cells.getD
          idx default
      = Cell.setType { s.cells.getD idx default with
        text := some (if pyTruthy v then "TRUE" else "FALSE") } VALUE_TYPE_BOOLEAN
      from getD_set_self _ idx _ _ (by simpa using hidx)]
    unfold Cell.setType
    rw [if_neg (by decide : (VALUE_TYPE_BOOLEAN : Int) ≠ VALUE_TYPE_EXPR)]

/-- C4, witness: the amended theorem applied to storing `False` into a
fresh EMPTY cell — the stored text is `"FALSE"`. -/
theorem C4_boolean_text_witness :
    ∃ s', Cell.set_value plainSheet 0 (.pyBool false) .infer = .ok s' ∧
      (s'.cells.getD 0 default).text
        = some (if pyTruthy (.pyBool false) then "TRUE" else "FALSE") :=
  C4_boolean_text plainSheet 0 (.pyBool false) .infer (by decide) rfl

/-- C5, counterexample: a cell with no type tag, no expression-id and
absent (`None`) text fails with `AttributeError` (from
`None.startswith('=')`), not with `UnrecognizedCellTypeException` as the
claim states. -/
theorem C5_counterexample :
    Cell.value_type ⟨0, 0, none, none, none⟩ = .error .attributeError ∧
    (Except.error PyError.attributeError : Except PyError Int)
      ≠ .error .unrecognizedCellType :=
  ⟨rfl, fun h => PyError.noConfusion (Except.error.inj h)⟩

/-- C5 (amended): `value_type` returns the explicit tag when present, else
EXPR when an expression-id is present, else — for a present text — EXPR
when the text starts with `=` and an `UnrecognizedCellTypeException`
otherwise; for a cell with neither tag nor expression-id and absent
(`None`) text it fails with `AttributeError` (calling `startswith` on
`None`), not with `UnrecognizedCellTypeException`. -/
theorem C5_value_type (c : CellNode) :
    (∀ vt : Int, c.valueType = some vt → Cell.value_type c = .ok vt) ∧
    (c.valueType = none → c.exprId ≠ none →
      Cell.value_type c = .ok VALUE_TYPE_EXPR) ∧
    (∀ t : String, c.valueType = none → c.exprId = none → c.text = some t →
      Cell.value_type c = (if startsWithEquals t then .ok VALUE_TYPE_EXPR
        else .error .unrecognizedCellType)) ∧
    (c.valueType = none → c.exprId = none → c.text = none →
      Cell.value_type c = .error .attributeError) := by
  refine ⟨?_, ?_, ?_, ?_⟩
  · intro vt h
    simp [Cell.value_type, h]
  · intro h1 h2
    cases hex : c.exprId with
    | none => exact absurd hex h2
    | some e => simp [Cell.value_type, h1, hex]
  · intro t h1 h2 h3
    simp [Cell.value_type, h1, h2, h3]
  · intro h1 h2 h3
    simp [Cell.value_type, h1, h2, h3]

/-- C5, witness: the amended theorem applied to a tag-less, id-less cell
with the plain text `"abc"` — `value_type` fails with
`UnrecognizedCellTypeException`. -/
theorem C5_value_type_witness :
    Cell.value_type ⟨0, 0, none, none, some "abc"⟩
      = (if startsWithEquals "abc" then .ok VALUE_TYPE_EXPR
         else .error .unrecognizedCellType) :=
  (C5_value_type ⟨0, 0, none, none, some "abc"⟩).2.2.1 "abc" rfl rfl rfl

theorem listMin_mem (l : List Int) (hl : l ≠ []) : listMin l ∈ l := by
  cases l with
  | nil => exact absurd rfl hl
  | cons y ys =>
    show ys.foldl min y ∈ y :: ys
    rcases foldl_min_mem ys y with h | h
    · rw [h]; exact List.mem_cons_self y ys
    · exact List.mem_cons_of_mem y h

theorem listMin_le (l : List Int) (m : Int) (hm : m ∈ l) : listMin l ≤ m := by
  cases l with
  | nil => simp at hm
  | cons y ys =>
    show ys.foldl min y ≤ m
    rcases List.mem_cons.mp hm with rfl | h
    · exact foldl_min_le ys m
    · exact foldl_min_le_mem ys y m h

theorem listMax_mem (l : List Int) (hl : l ≠ []) : listMax l ∈ l := by
  cases l with
  | nil => exact absurd rfl hl
  | cons y ys =>
    show ys.foldl max y ∈ y :: ys
    rcases foldl_max_mem ys y with h | h
    · rw [h]; exact List.mem_cons_self y ys
    · exact List.mem_cons_of_mem y h

theorem le_listMax (l : List Int) (m : Int) (hm : m ∈ l) : m ≤ listMax l := by
  cases l with
  | nil => simp at hm
  | cons y ys =>
    show m ≤ ys.foldl max y
    rcases List.mem_cons.mp hm with rfl | h
    · exact le_foldl_max ys m
    · exact mem_le_foldl_max ys y m h

/-- C6: on a Regular sheet the four bounding queries reduce (min or max)
over the rows/columns of the currently non-empty materialized cells,
returning `-1` when there is no non-empty cell, and
`calculate_dimension` returns the four-tuple of those values; on an
Object (chart) sheet all five operations fail with
`UnsupportedOperationException`. -/
theorem C6_bounding (s : SheetState) :
    (s.sheetType = SHEET_TYPE_OBJECT →
      Sheet.min_row s = .error .unsupportedOperation ∧
      Sheet.min_column s = .error .unsupportedOperation ∧
      Sheet.max_row s = .error .unsupportedOperation ∧
      Sheet.max_column s = .error .unsupportedOperation ∧
      Sheet.calculate_dimension s = .error .unsupportedOperation) ∧
    (s.sheetType ≠ SHEET_TYPE_OBJECT →
      (Sheet.nonEmptyCells s = [] →
        Sheet.min_row s = .ok (-1) ∧ Sheet.min_column s = .ok (-1) ∧
        Sheet.max_row s = .ok (-1) ∧ Sheet.max_column s = .ok (-1) ∧
        Sheet.calculate_dimension s = .ok (-1, -1, -1, -1)) ∧
      (Sheet.nonEmptyCells s ≠ [] →
        ∃ a b r k : Int,
          Sheet.min_row s = .ok a ∧ Sheet.min_column s = .ok b ∧
          Sheet.max_row s = .ok r ∧ Sheet.max_column s = .ok k ∧
          Sheet.calculate_dimension s = .ok (a, b, r, k) ∧
          (∃ c0 ∈ Sheet.nonEmptyCells s, c0.row = a) ∧
          (∀ c0 ∈ Sheet.nonEmptyCells s, a ≤ c0.row) ∧
          (∃ c0 ∈ Sheet.nonEmptyCells s, c0.col = b) ∧
          (∀ c0 ∈ Sheet.nonEmptyCells s, b ≤ c0.col) ∧
          (∃ c0 ∈ Sheet.nonEmptyCells s, c0.row = r) ∧
          (∀ c0 ∈ Sheet.nonEmptyCells s, c0.row ≤ r) ∧
          (∃ c0 ∈ Sheet.nonEmptyCells s, c0.col = k) ∧
          (∀ c0 ∈ Sheet.nonEmptyCells s, c0.col ≤ k))) := by
  constructor
  · intro h
    refine ⟨?_, ?_, ?_, ?_, ?_⟩ <;>
      simp [Sheet.min_row, Sheet.min_column, Sheet.max_row, Sheet.max_column,
        Sheet.calculate_dimension, h]
  · intro h
    have hmapne : ∀ (f : CellNode → Int), Sheet.nonEmptyCells s ≠ [] →
        (Sheet.nonEmptyCells s).map f ≠ [] := by
      intro f hne hmap
      exact hne (List.map_eq_nil_iff.mp hmap)
    constructor
    · intro hemp
      have hlen : (Sheet.nonEmptyCells s).length = 0 := by rw [hemp]; rfl
      have e1 : Sheet.min_row s = .ok (-1) := by rw [min_row_eq s h, if_pos hlen]
      have e2 : Sheet.min_column s = .ok (-1) := by rw [min_column_eq s h, if_pos hlen]
      have e3 : Sheet.max_row s = .ok (-1) := by rw [max_row_eq s h, if_pos hlen]
      have e4 : Sheet.max_column s = .ok (-1) := by rw [max_column_eq s h, if_pos hlen]
      refine ⟨e1, e2, e3, e4, ?_⟩
      unfold Sheet.calculate_dimension
      rw [if_neg h]
      simp [e1, e2, e3, e4, Bind.bind, Except.bind]
    · intro hne
      have hlen : ¬(Sheet.nonEmptyCells s).length = 0 := by
        intro hz
        exact hne (List.length_eq_zero.mp hz)
      have e1 : Sheet.min_row s = .ok (listMin ((Sheet.nonEmptyCells s).map (·.row))) := by
        rw [min_row_eq s h, if_neg hlen]
      have e2 : Sheet.min_column s = .ok (listMin ((Sheet.nonEmptyCells s).map (·.col))) := by
        rw [min_column_eq s h, if_neg hlen]
      have e3 : Sheet.max_row s = .ok (listMax ((Sheet.nonEmptyCells s).map (·.row))) := by
        rw [max_row_eq s h, if_neg hlen]
      have e4 : Sheet.max_column s = .ok (listMax ((Sheet.nonEmptyCells s).map (·.col))) := by
        rw [max_column_eq s h, if_neg hlen]
      refine ⟨_, _, _, _, e1, e2, e3, e4, ?_, ?_, ?_, ?_, ?_, ?_, ?_, ?_, ?_⟩
      · unfold Sheet.calculate_dimension
        rw [if_neg h]
        simp [e1, e2, e3, e4, Bind.bind, Except.bind]
      · exact List.mem_map.mp (listMin_mem _ (hmapne (·.row) hne))
      · intro c0 hc0
        exact listMin_le _ _ (List.mem_map_of_mem (·.row) hc0)
      · exact List.mem_map.mp (listMin_mem _ (hmapne (·.col) hne))
      · intro c0 hc0
        exact listMin_le _ _ (List.mem_map_of_mem (·.col) hc0)
      · exact List.mem_map.mp (listMax_mem _ (hmapne (·.row) hne))
      · intro c0 hc0
        exact le_listMax _ _ (List.mem_map_of_mem (·.row) hc0)
      · exact List.mem_map.mp (listMax_mem _ (hmapne (·.col) hne))
      · intro c0 hc0
        exact le_listMax _ _ (List.mem_map_of_mem (·.col) hc0)

/-- An object (chart) sheet with no cells. -/
def objSheet : SheetState := ⟨SHEET_TYPE_OBJECT, 99, 99, "0", "0", [], 0⟩

/-- C6, witness: `calculate_dimension` fails with
`UnsupportedOperationException` on the chart sheet and returns the
`(-1, -1, -1, -1)` sentinel on a regular sheet whose only cell is
EMPTY-tagged. -/
theorem C6_bounding_witness :
    Sheet.calculate_dimension objSheet = .error .unsupportedOperation ∧
    Sheet.calculate_dimension plainSheet = .ok (-1, -1, -1, -1) := by
  have h1 := (C6_bounding objSheet).1 rfl
  have h2 := ((C6_bounding plainSheet).2 (by decide)).1 rfl
  exact ⟨h1.2.2.2.2, h2.2.2.2.2⟩

/-- C7: on a regular sheet, `_clean_data` succeeds, removes exactly the
currently-empty materialized cells (keeping the non-empty ones unchanged
and in order), rewrites the recorded max-row/max-column metadata from the
remaining non-empty cells, and is idempotent. -/
theorem C7_compaction (s : SheetState) (h : s.sheetType ≠ SHEET_TYPE_OBJECT) :
    (∃ s', Sheet.clean_data s = .ok s') ∧
    ∀ s', Sheet.clean_data s = .ok s' →
      s'.cells = s.cells.filter (fun c => !Sheet.isEmptyCell c) ∧
      Sheet.nonEmptyCells s' = Sheet.nonEmptyCells s ∧
      (∃ mr mc : Int, Sheet.max_row s' = .ok mr ∧ Sheet.max_column s' = .ok mc ∧
        s'.maxRowMeta = toString mr ∧ s'.maxColMeta = toString mc) ∧
      Sheet.clean_data s' = .ok s' := by
  refine ⟨⟨_, clean_data_eq s h⟩, ?_⟩
  intro s' hs'
  rw [clean_data_eq s h] at hs'
  have hs2 := (Except.ok.inj hs').symm
  subst hs2
  refine ⟨rfl, filter_idem _ _, ⟨_, _, ?_, ?_, rfl, rfl⟩, ?_⟩
  · rw [max_row_eq]
    · simp [Sheet.nonEmptyCells, filter_idem]
    · exact h
  · rw [max_column_eq]
    · simp [Sheet.nonEmptyCells, filter_idem]
    · exact h
  · rw [clean_data_eq]
    · simp [Sheet.nonEmptyCells, filter_idem]
    · exact h

/-- C7, witness: compaction of a two-cell sheet (one EMPTY-tagged cell,
one STRING cell) succeeds, keeps exactly the STRING cell, and is
idempotent. -/
theorem C7_compaction_witness :
    ∃ s', Sheet.clean_data ⟨SHEET_TYPE_REGULAR, 99, 99, "0", "0",
        [⟨3, 4, some VALUE_TYPE_EMPTY, none, none⟩,
         ⟨5, 6, some VALUE_TYPE_STRING, none, some "x"⟩], 7⟩ = .ok s' ∧
      s'.cells = [⟨5, 6, some VALUE_TYPE_STRING, none, some "x"⟩] ∧
      Sheet.clean_data s' = .ok s' := by
  obtain ⟨⟨s', h1⟩, h2⟩ := C7_compaction ⟨SHEET_TYPE_REGULAR, 99, 99, "0", "0",
    [⟨3, 4, some VALUE_TYPE_EMPTY, none, none⟩,
     ⟨5, 6, some VALUE_TYPE_STRING, none, some "x"⟩], 7⟩ (by decide)
  obtain ⟨hc, _, _, hid⟩ := h2 s' h1
  exact ⟨s', h1, by rw [hc]; rfl, hid⟩

/-- C8: round-trip of scalar values under inferred typing — for any cell,
after `set_value(x)` with the default inferred type, `get_value()` returns
a value equal to `x`, for `x` in `{True, 10, 10.0}`. -/
theorem C8_roundtrip (s : SheetState) (idx : Nat) (hidx : idx < s.cells.length) :
    (∃ s', Cell.set_value s idx (.pyBool true) .infer = .ok s' ∧
      Cell.get_value s' (s'.cells.getD idx default) = .ok (.pyBool true)) ∧
    (∃ s', Cell.set_value s idx (.pyInt 10) .infer = .ok s' ∧
      Cell.get_value s' (s'.cells.getD idx default) = .ok (.pyInt 10)) ∧
    (∃ s', Cell.set_value s idx (.pyFloat ⟨"10.0"⟩) .infer = .ok s' ∧
      Cell.get_value s' (s'.cells.getD idx default) = .ok (.pyFloat ⟨"10.0"⟩)) := by
  refine ⟨⟨_, set_value_nonexpr_eq s idx (.pyBool true) .infer VALUE_TYPE_BOOLEAN
        (fun e h => PyValue.noConfusion h) rfl, ?_⟩,
      ⟨_, set_value_nonexpr_eq s idx (.pyInt 10) .infer VALUE_TYPE_INTEGER
        (fun e h => PyValue.noConfusion h) rfl, ?_⟩,
      ⟨_, set_value_nonexpr_eq s idx (.pyFloat ⟨"10.0"⟩) .infer VALUE_TYPE_FLOAT
        (fun e h => PyValue.noConfusion h) rfl, ?_⟩⟩ <;>
    rw [show ∀ (c : CellNode), (setCellAt s idx c).cells.getD idx default = c from
      fun c => getD_set_self _ idx _ _ (by simpa using hidx)] <;>
    rfl

/-- C9: the boolean `False` does not round-trip — `set_value(False)` with
inferred typing stores the non-empty text `"FALSE"`, and BOOLEAN retrieval
is a truthiness parse of the stored text, so `get_value()` returns
`True`. -/
theorem C9_false_roundtrip (s : SheetState) (idx : Nat) (hidx : idx < s.cells.length) :
    ∃ s', Cell.set_value s idx (.pyBool false) .infer = .ok s' ∧
      (s'.cells.getD idx default).text = some "FALSE" ∧
      Cell.get_value s' (s'.cells.getD idx default) = .ok (.pyBool true) ∧
      (PyValue.pyBool true : PyValue) ≠ .pyBool false := by
  refine ⟨_, set_value_nonexpr_eq s idx (.pyBool false) .infer VALUE_TYPE_BOOLEAN
      (fun e h => PyValue.noConfusion h) rfl, ?_⟩
  rw [show ∀ (c : CellNode), (setCellAt s idx c).cells.getD idx default = c from
    fun c => getD_set_self _ idx _ _ (by simpa using hidx)]
  exact ⟨rfl, rfl, by decide⟩

/-- C10: `set_value` with an expression-reference value whose id is absent,
on a cell of a sheet whose expression map holds no ids at all, fails with
`ValueError` during id allocation (`max()` over the empty collection of
existing ids) instead of allocating an initial id. -/
theorem C10_alloc_failure (s : SheetState) (idx : Nat) (e : ExpressionObj)
    (hws : e.worksheet = s.wsId) (hid : e.id = none)
    (hmap : Sheet.getExpressionMap s = []) :
    Cell.set_value s idx (.pyExpr e) .infer = .error .valueError ∧
    allocateExprId (Sheet.getExpressionMap s) = .error .valueError := by
  constructor
  · unfold Cell.set_value
    simp [Cell.resolveValueType, Cell.inferValueType, Bind.bind, Except.bind,
      hmap, hws, hid, allocateExprId, strOfOptId, VALUE_TYPE_EXPR, VALUE_TYPE_BOOLEAN,
      VALUE_TYPE_EMPTY]
  · rw [hmap]
    rfl

/-- C8, witness: the integer round-trip on the one-cell sheet. -/
theorem C8_roundtrip_witness :
    ∃ s', Cell.set_value plainSheet 0 (.pyInt 10) .infer = .ok s' ∧
      Cell.get_value s' (s'.cells.getD 0 default) = .ok (.pyInt 10) :=
  (C8_roundtrip plainSheet 0 (by decide)).2.1

/-- C9, witness: the failed `False` round-trip on the one-cell sheet. -/
theorem C9_false_roundtrip_witness :
    ∃ s', Cell.set_value plainSheet 0 (.pyBool false) .infer = .ok s' ∧
      (s'.cells.getD 0 default).text = some "FALSE" ∧
      Cell.get_value s' (s'.cells.getD 0 default) = .ok (.pyBool true) ∧
      (PyValue.pyBool true : PyValue) ≠ .pyBool false :=
  C9_false_roundtrip plainSheet 0 (by decide)

/-- C10, witness: the allocation failure on the one-cell sheet with an
empty expression map. -/
theorem C10_alloc_failure_witness :
    Cell.set_value exprTextSheet 0 (.pyExpr ⟨none, 0, (0, 0)⟩) .infer = .error .valueError ∧
    allocateExprId (Sheet.getExpressionMap exprTextSheet) = .error .valueError :=
  C10_alloc_failure exprTextSheet 0 ⟨none, 0, (0, 0)⟩ rfl rfl rfl
